import Mathlib

/-!
Verification of the web3-proxy request dispatch engine (`src/web3-proxy/src/app.rs`,
`src/web3-proxy/src/config.rs`).

The stateful request path `Web3ProxyApp::proxy_web3_rpc_request` is embedded as a
small-step interleaving semantics over an explicit system state: each inbound request
is a thread whose program counter follows the suspension points of the Rust code
(cache lookup, DashMap entry, watch-channel await, upstream dispatch, cache write).
Pure pieces (the response cache's insert/trim, `update_config`, the request timeout,
the subscription notification bodies, `eth_subscribe` parameter handling) are embedded
as plain functions.
-/

/-- Response body; models `JsonRpcForwardedResponse` (opaque to the router logic). -/
abbrev Resp := String

/-- Models `JsonRpcRequest`: an id, a method name, and optional raw params text
(`Option<Box<RawValue>>` in the source; the router only clones/compares it). -/
structure JsonRpcRequest where
  id : Nat
  method : String
  params : Option String
deriving DecidableEq, Repr

/-- Models `type CacheKey = (Option<H256>, String, Option<String>)` (app.rs line 43).
The hash is modelled as a natural number. -/
structure CacheKey where
  headHash : Option Nat
  method : String
  params : Option String
deriving DecidableEq, Repr

/-- Models the key computation in `get_cached_response` (app.rs lines 595-603):
`head_block_hash` is always `Some(self.balanced_rpcs.get_head_block_hash())`
(the TODO about skipping the head for some requests is not implemented), the method
is cloned, and the params are stringified. -/
def cacheKeyOf (headBlockHash : Nat) (req : JsonRpcRequest) : CacheKey :=
  ⟨some headBlockHash, req.method, req.params⟩

/-- The exact method list of the first match arm of `proxy_web3_rpc_request`
(app.rs lines 637-676), which returns `Err(anyhow!("unimplemented"))`. -/
def forbiddenMethods : List String :=
  [ "admin_addPeer"
  , "admin_datadir"
  , "admin_startRPC"
  , "admin_startWS"
  , "admin_stopRPC"
  , "admin_stopWS"
  , "debug_chaindbCompact"
  , "debug_freezeClient"
  , "debug_goTrace"
  , "debug_mutexProfile"
  , "debug_setBlockProfileRate"
  , "debug_setGCPercent"
  , "debug_setHead"
  , "debug_setMutexProfileFraction"
  , "debug_standardTraceBlockToFile"
  , "debug_standardTraceBadBlockToFile"
  , "debug_startCPUProfile"
  , "debug_startGoTrace"
  , "debug_stopCPUProfile"
  , "debug_stopGoTrace"
  , "debug_writeBlockProfile"
  , "debug_writeMemProfile"
  , "debug_writeMutexProfile"
  , "les_addBalance"
  , "les_setClientParams"
  , "les_setDefaultParams"
  , "miner_setExtra"
  , "miner_setGasPrice"
  , "miner_start"
  , "miner_stop"
  , "miner_setEtherbase"
  , "miner_setGasLimit"
  , "personal_importRawKey"
  , "personal_listAccounts"
  , "personal_lockAccount"
  , "personal_newAccount"
  , "personal_unlockAccount"
  , "personal_sendTransaction"
  , "personal_sign"
  , "personal_ecRecover" ]

/-- The two methods that are dispatched with `try_send_all_upstream_servers` inside
the cacheable arm (app.rs line 741). -/
def fanQueryMethods : List String :=
  ["eth_getTransactionByHash", "eth_getTransactionReceipt"]

/-- Capacity constant `RESPONSE_CACHE_CAP` (app.rs line 40). -/
def RESPONSE_CACHE_CAP : Nat := 1024

/-- Insert into the `LinkedHashMap` model: an existing key has its value replaced in
place (it keeps its position in the insertion order), a fresh key is appended at the
back.  The code's own comment (app.rs line 761) describes the resulting eviction
order as "least recently created". -/
def lhmInsert (c : List (CacheKey × Resp)) (k : CacheKey) (v : Resp) :
    List (CacheKey × Resp) :=
  match c with
  | [] => [(k, v)]
  | (k', v') :: rest =>
      if k' = k then (k', v) :: rest else (k', v') :: lhmInsert rest k v

/-- Lookup in the `LinkedHashMap` model (`response_cache.read().get(&key)`). -/
def lhmGet (c : List (CacheKey × Resp)) (k : CacheKey) : Option Resp :=
  match c with
  | [] => none
  | (k', v') :: rest => if k' = k then some v' else lhmGet rest k

/-- Models app.rs lines 759-763: `response_cache.insert(key, v)` followed by
`if response_cache.len() >= RESPONSE_CACHE_CAP { response_cache.pop_front(); }`. -/
def cacheInsertTrim (c : List (CacheKey × Resp)) (k : CacheKey) (v : Resp) :
    List (CacheKey × Resp) :=
  let c' := lhmInsert c k v
  if RESPONSE_CACHE_CAP ≤ c'.length then c'.tail else c'

/-- Lookup in the inflight table model (`ActiveRequestsMap = DashMap<CacheKey, _>`,
app.rs line 47); the value is the id of the thread whose watch receiver is stored. -/
def inflightLookup (m : List (CacheKey × Nat)) (k : CacheKey) : Option Nat :=
  match m with
  | [] => none
  | (k', i) :: rest => if k' = k then some i else inflightLookup rest k

/-- Removal from the inflight table model (`incoming_requests.remove(&cache_key)`). -/
def inflightRemove (m : List (CacheKey × Nat)) (k : CacheKey) : List (CacheKey × Nat) :=
  match m with
  | [] => []
  | (k', i) :: rest =>
      if k' = k then inflightRemove rest k else (k', i) :: inflightRemove rest k

/-- Which pool a dispatch goes to: `try_send_all_upstream_servers` on the private
pool, or `try_send_best_upstream_server` on the balanced pool. -/
inductive DispatchTarget
  | allPrivate
  | best
deriving DecidableEq, Repr

deriving instance DecidableEq for Except

/-- Program counter of one request task running `proxy_web3_rpc_request`.
`start` is function entry (about to run `get_cached_response`); `checkInflight` is
about to run `incoming_requests.entry(...)`; `awaitSignal owner` is parked in
`other_incoming_rx.changed().await` on the channel stored by thread `owner`;
`recheckCache` re-reads the cache after the wait (app.rs line 720); `dispatch` is
about to make the upstream call; `finish` is about to write the cache, remove the
inflight entry and signal (lines 755-768). -/
inductive ThreadPhase
  | start
  | checkInflight
  | awaitSignal (owner : Nat)
  | recheckCache
  | dispatch
  | finish (resp : Resp)
  | done (result : Except String Resp)
deriving DecidableEq, Repr

/-- One request task.  `chanOpen` is the state of the task's `watch::channel`
(app.rs line 702): it becomes false when the task sends `false` or returns
(dropping `incoming_tx`); either unparks every receiver. -/
structure Thread where
  req : JsonRpcRequest
  phase : ThreadPhase
  chanOpen : Bool
deriving DecidableEq, Repr

/-- A recorded upstream dispatch. -/
structure Call where
  thread : Nat
  target : DispatchTarget
  method : String
deriving DecidableEq, Repr

/-- The shared state of `Web3ProxyApp` visible to `proxy_web3_rpc_request`, plus
the set of request tasks and a log of upstream dispatches. -/
structure SysState where
  headBlockHash : Nat
  cache : List (CacheKey × Resp)
  inflight : List (CacheKey × Nat)
  threads : List Thread
  calls : List Call
deriving DecidableEq, Repr

/-- Replace thread `i`, update the shared maps, and append dispatch records.
Every non-blocked branch of `step` has this shape. -/
def applyStep (s : SysState) (i : Nat) (t' : Thread) (cache' : List (CacheKey × Resp))
    (inflight' : List (CacheKey × Nat)) (cs : List Call) : SysState :=
  { s with cache := cache', inflight := inflight',
           threads := s.threads.set i t', calls := s.calls ++ cs }

/-- One atomic step of thread `i` of `proxy_web3_rpc_request`.  `oracle i` is the
outcome of thread `i`'s upstream dispatch (each task dispatches at most once).
Branches, in source order:
* `start`, method in the forbidden list (lines 637-679): return the error.
* `start`, `eth_sendRawTransaction` (lines 680-687): dispatch to all private
  upstreams and return the result directly (no cache, no inflight table).
* `start`, other methods: `get_cached_response` (lines 691-698) — on a hit remove
  the inflight entry and return; on a miss continue.
* `checkInflight` (lines 702-711): `entry()` — occupied attaches to the stored
  receiver, vacant inserts this thread's receiver and proceeds to dispatch.
* `awaitSignal owner` (line 717): blocked until `owner`'s channel is signalled or
  dropped.
* `recheckCache` (lines 720-737): hit removes the entry, signals own channel and
  returns; miss proceeds to dispatch (without re-registering).
* `dispatch` (lines 740-753): record the upstream call (`try_send_all` on the
  private pool for the fan-query methods, else `try_send_best` on the balanced
  pool); an `Err` propagates with `?`, returning at once (channel dropped, entry
  NOT removed).
* `finish` (lines 755-770): write the cache with trim, remove the inflight entry,
  send `false`, return the response. -/
def step (oracle : Nat → Except String Resp) (s : SysState) (i : Nat) : SysState :=
  match s.threads[i]? with
  | none => s
  | some t =>
    match t.phase with
    | .start =>
        if forbiddenMethods.contains t.req.method then
          applyStep s i { t with phase := .done (.error "unimplemented"), chanOpen := false }
            s.cache s.inflight []
        else if t.req.method = "eth_sendRawTransaction" then
          applyStep s i { t with phase := .done (oracle i), chanOpen := false }
            s.cache s.inflight [⟨i, .allPrivate, t.req.method⟩]
        else
          match lhmGet s.cache (cacheKeyOf s.headBlockHash t.req) with
          | some r =>
              applyStep s i { t with phase := .done (.ok r), chanOpen := false }
                s.cache (inflightRemove s.inflight (cacheKeyOf s.headBlockHash t.req)) []
          | none =>
              applyStep s i { t with phase := .checkInflight } s.cache s.inflight []
    | .checkInflight =>
        match inflightLookup s.inflight (cacheKeyOf s.headBlockHash t.req) with
        | some owner =>
            applyStep s i { t with phase := .awaitSignal owner } s.cache s.inflight []
        | none =>
            applyStep s i { t with phase := .dispatch } s.cache
              (s.inflight ++ [(cacheKeyOf s.headBlockHash t.req, i)]) []
    | .awaitSignal owner =>
        match s.threads[owner]? with
        | none => s
        | some ot =>
            if ot.chanOpen then s
            else applyStep s i { t with phase := .recheckCache } s.cache s.inflight []
    | .recheckCache =>
        match lhmGet s.cache (cacheKeyOf s.headBlockHash t.req) with
        | some r =>
            applyStep s i { t with phase := .done (.ok r), chanOpen := false }
              s.cache (inflightRemove s.inflight (cacheKeyOf s.headBlockHash t.req)) []
        | none =>
            applyStep s i { t with phase := .dispatch } s.cache s.inflight []
    | .dispatch =>
        match oracle i with
        | .error e =>
            applyStep s i { t with phase := .done (.error e), chanOpen := false }
              s.cache s.inflight
              [⟨i, if fanQueryMethods.contains t.req.method then .allPrivate else .best,
                 t.req.method⟩]
        | .ok r =>
            applyStep s i { t with phase := .finish r } s.cache s.inflight
              [⟨i, if fanQueryMethods.contains t.req.method then .allPrivate else .best,
                 t.req.method⟩]
    | .finish r =>
        applyStep s i { t with phase := .done (.ok r), chanOpen := false }
          (cacheInsertTrim s.cache (cacheKeyOf s.headBlockHash t.req) r)
          (inflightRemove s.inflight (cacheKeyOf s.headBlockHash t.req)) []
    | .done _ => s

/-- A freshly arrived request task. -/
def initThread (req : JsonRpcRequest) : Thread := ⟨req, .start, true⟩

/-- Initial system state: empty cache and inflight table, one task per request. -/
def initState (headBlockHash : Nat) (reqs : List JsonRpcRequest) : SysState :=
  ⟨headBlockHash, [], [], reqs.map initThread, []⟩

/-- Run a schedule (a list of thread indices, each performing one step). -/
def run (oracle : Nat → Except String Resp) (s : SysState) (sched : List Nat) : SysState :=
  sched.foldl (step oracle) s

/-- Models `Web3ConnectionConfig` (config.rs lines 42-47). -/
structure Web3ConnectionConfig where
  url : String
  soft_limit : Nat
  hard_limit : Option Nat
deriving DecidableEq, Repr

/-- Models `RpcSharedConfig` (config.rs lines 35-40). -/
structure RpcSharedConfig where
  chain_id : Nat
  rate_limit_redis : Option String
deriving DecidableEq, Repr

/-- Models `RpcConfig` (config.rs lines 27-32).  Note: there is no timeout field
anywhere in the configuration. -/
structure RpcConfig where
  shared : RpcSharedConfig
  balanced_rpcs : List (String × Web3ConnectionConfig)
  private_rpcs : List (String × Web3ConnectionConfig)
deriving DecidableEq, Repr

/-- The parts of `Web3ProxyApp` that `update_config` can touch, with the pools
represented by the configurations they were spawned from. -/
structure AppState where
  chain_id : Nat
  balanced_rpcs : List (String × Web3ConnectionConfig)
  private_rpcs : List (String × Web3ConnectionConfig)
  response_cache : List (CacheKey × Resp)
  incoming_requests : List (CacheKey × Nat)
deriving DecidableEq, Repr

/-- Models `Web3ProxyApp::update_config` (app.rs lines 116-177): if the new
`chain_id` differs it returns `Err("cannot change chain id!")` before touching
anything; otherwise it spawns new pools from the new config and swaps them in
(`private_rpcs` falls back to the balanced pool when empty, lines 148-151). -/
def update_config (app : AppState) (new_config : RpcConfig) :
    AppState × Option String :=
  if new_config.shared.chain_id ≠ app.chain_id then
    (app, some "cannot change chain id!")
  else
    ({ app with
        balanced_rpcs := new_config.balanced_rpcs,
        private_rpcs :=
          if new_config.private_rpcs = [] then new_config.balanced_rpcs
          else new_config.private_rpcs },
     none)

/-- Models `let max_time = Duration::from_secs(60)` in `proxy_web3_rpc`
(app.rs line 541): a constant number of seconds that does not read any
configuration. -/
def max_time (_cfg : RpcConfig) : Nat := 60

/-- Models a top-level request (app.rs `JsonRpcRequestEnum`): single or batch. -/
inductive JsonRpcRequestEnum
  | single (r : JsonRpcRequest)
  | batch (rs : List JsonRpcRequest)
deriving DecidableEq, Repr

/-- Models the `timeout(max_time, ...)` wrapper of `proxy_web3_rpc`
(app.rs lines 543-550): both the Single and the Batch arm run the inner future
under the same deadline; `elapsed` is the wall-clock time the inner work would
take and `inner` its eventual result.  When the deadline expires the `?` on the
`timeout` result surfaces the `Elapsed` error regardless of `inner`. -/
def proxy_web3_rpc (cfg : RpcConfig) (_req : JsonRpcRequestEnum) (elapsed : Nat)
    (inner : Except String (List Resp)) : Except String (List Resp) :=
  if max_time cfg < elapsed then .error "deadline has elapsed" else inner

/-- Models `ethers::prelude::Transaction` as far as the subscription code uses it:
a hash and the RLP bytes. -/
structure Transaction where
  hash : Nat
  rlp : List Nat
deriving DecidableEq, Repr

/-- Models `TxState` (app.rs lines 74-79). -/
inductive TxState
  | Pending (tx : Transaction)
  | Confirmed (tx : Transaction)
  | Orphaned (tx : Transaction)
deriving DecidableEq, Repr

/-- The notification object built by the `newPendingTransactions` loop
(app.rs lines 397-404): `jsonrpc`, `method`, and the params fields
`subscription` and `result`, where `result` is `new_tx.hash` only. -/
structure PendingTxNotification where
  jsonrpc : String
  method : String
  subscription : String
  result : Nat
deriving DecidableEq, Repr

/-- Models one iteration of the `newPendingTransactions` subscription loop
(app.rs lines 389-404): `Confirmed` is skipped with `continue`; `Pending` and
`Orphaned` produce the `eth_subscription` envelope carrying the transaction hash. -/
def pending_tx_notification (subscription_id : String) (st : TxState) :
    Option PendingTxNotification :=
  match st with
  | .Pending tx => some ⟨"2.0", "eth_subscription", subscription_id, tx.hash⟩
  | .Confirmed _ => none
  | .Orphaned tx => some ⟨"2.0", "eth_subscription", subscription_id, tx.hash⟩

/-- Outcome of `eth_subscribe` (app.rs lines 325-515) as observable from outside:
the `unwrap()` on `payload.params` panics when params is `None`; an unrecognized
params text returns `Err(anyhow!("unimplemented"))` before any task is spawned;
a recognized literal spawns the subscription task for that kind. -/
inductive SubscribeOutcome
  | panicked
  | errored (msg : String)
  | subscribed (kind : String)
deriving DecidableEq, Repr

/-- Models the `match payload.params.as_deref().unwrap().get()` dispatch of
`eth_subscribe` (app.rs line 342): the four match arms compare the raw params
text against exact literals. -/
def eth_subscribe (params : Option String) : SubscribeOutcome :=
  match params with
  | none => .panicked
  | some p =>
      if p = "[\"newHeads\"]" then .subscribed "newHeads"
      else if p = "[\"newPendingTransactions\"]" then
        .subscribed "newPendingTransactions"
      else if p = "[\"newPendingFullTransactions\"]" then
        .subscribed "newPendingFullTransactions"
      else if p = "[\"newPendingRawTransactions\"]" then
        .subscribed "newPendingRawTransactions"
      else .errored "unimplemented"

/-- The params literals accepted by `eth_subscribe`. -/
def subscribeKinds : List String :=
  [ "[\"newHeads\"]"
  , "[\"newPendingTransactions\"]"
  , "[\"newPendingFullTransactions\"]"
  , "[\"newPendingRawTransactions\"]" ]

/-- Modelled from the spec: `Web3Connections::try_send_all_upstream_servers`
lives in src/connections.rs, which is not among the provided sources.  The spec
says a fan-query is broadcast to all servers and the first non-null success wins:
given the per-upstream answers in arrival order (`none` meaning a null or failed
answer), the first non-null one is returned. -/
def try_send_all_upstream_servers (answers : List (Option Resp)) :
    Except String Resp :=
  match answers with
  | [] => .error "no successful responses"
  | none :: rest => try_send_all_upstream_servers rest
  | some r :: _ => .ok r

/-! Concrete requests, oracles and schedules used by the claim theorems. -/

/-- A cacheable request (`eth_blockNumber`). -/
def blockNumberReq (n : Nat) : JsonRpcRequest := ⟨n, "eth_blockNumber", none⟩

/-- Every upstream dispatch succeeds with the body `0x10`. -/
def okOracle : Nat → Except String Resp := fun _ => .ok "0x10"

/-- The schedule refuting single-flight: both tasks read the cache (miss) before
either registers; task 0 then registers, dispatches, caches, removes its inflight
entry and signals; task 1 resumes, finds the inflight table vacant, registers and
dispatches again. -/
def raceSched : List Nat := [0, 1, 0, 0, 0, 1, 1, 1]

/-- A cacheable request whose dispatch will fail. -/
def failReq : JsonRpcRequest := ⟨1, "eth_call", some "[]"⟩

/-- Every upstream dispatch fails with a transport error. -/
def failOracle : Nat → Except String Resp := fun _ => .error "connection reset"

/-- A request matching the `admin_*` wildcard but absent from the code's list. -/
def adminPeersReq : JsonRpcRequest := ⟨1, "admin_peers", none⟩

/-- A fan-query request. -/
def txByHashReq : JsonRpcRequest := ⟨1, "eth_getTransactionByHash", some "[]"⟩

/-- A head-independent (per the spec) request. -/
def chainIdReq : JsonRpcRequest := ⟨1, "eth_chainId", none⟩

/-- C1: the single-flight claim fails on the code.  Two concurrent requests with
the same cache key (same method `eth_blockNumber`, same params, same head) are run
against a schedule in which the second task's cache lookup happens before the
first task's cache write, and its `incoming_requests.entry` call happens after the
first task removed its entry.  Both dispatches succeed, both tasks get a response,
yet TWO upstream calls are made — the cache check and the inflight registration
are not atomic together and nothing re-checks (the code's own comment at app.rs
line 755 concedes the race). -/
theorem single_flight_violated :
    (run okOracle (initState 7 [blockNumberReq 1, blockNumberReq 2]) raceSched).calls.length
      = 2 ∧
    (run okOracle (initState 7 [blockNumberReq 1, blockNumberReq 2]) raceSched).threads.map
        Thread.phase
      = [ThreadPhase.done (.ok "0x10"), ThreadPhase.done (.ok "0x10")] :=
  ⟨rfl, rfl⟩

/-- C2 counterexample: a single request whose upstream dispatch fails.  After the
run the task has completed with the error and nothing was cached, but the
`InflightRequest` entry is still in the inflight table — the error return with `?`
at app.rs lines 740-752 skips `incoming_requests.remove(&cache_key)`. -/
theorem inflight_entry_not_removed_on_failure :
    (run failOracle (initState 7 [failReq]) [0, 0, 0]).threads.map Thread.phase
      = [ThreadPhase.done (.error "connection reset")] ∧
    (run failOracle (initState 7 [failReq]) [0, 0, 0]).cache = [] ∧
    (run failOracle (initState 7 [failReq]) [0, 0, 0]).inflight
      = [(cacheKeyOf 7 failReq, 0)] :=
  ⟨rfl, rfl, rfl⟩

/-- C3 counterexample: `admin_peers` matches the `admin_*` wildcard class, yet the
code's match arm lists only specific literals, so the request falls through to the
default arm, one upstream call is made and the upstream's answer is returned. -/
theorem wildcard_method_reaches_upstream :
    "admin_".toList.isPrefixOf "admin_peers".toList = true ∧
    (run (fun _ => .ok "r") (initState 7 [adminPeersReq]) [0, 0, 0, 0]).calls
      = [⟨0, .best, "admin_peers"⟩] ∧
    (run (fun _ => .ok "r") (initState 7 [adminPeersReq]) [0, 0, 0, 0]).threads.map
        Thread.phase
      = [ThreadPhase.done (.ok "r")] :=
  ⟨rfl, rfl, rfl⟩

/-- C4 counterexample: a successful `eth_getTransactionByHash` request is stored
in the response cache (app.rs line 759 runs for the fan-query arm too), and a
second identical request is then served from the cache with no further upstream
call — the claim says fan-query responses are never cached. -/
theorem fan_query_response_cached :
    (run (fun _ => .ok "txbody") (initState 7 [txByHashReq, txByHashReq])
        [0, 0, 0, 0, 1]).cache
      = [(cacheKeyOf 7 txByHashReq, "txbody")] ∧
    (run (fun _ => .ok "txbody") (initState 7 [txByHashReq, txByHashReq])
        [0, 0, 0, 0, 1]).calls
      = [⟨0, .allPrivate, "eth_getTransactionByHash"⟩] ∧
    (run (fun _ => .ok "txbody") (initState 7 [txByHashReq, txByHashReq])
        [0, 0, 0, 0, 1]).threads.map Thread.phase
      = [ThreadPhase.done (.ok "txbody"), ThreadPhase.done (.ok "txbody")] :=
  ⟨rfl, rfl, rfl⟩

/-- C5 counterexample: `eth_chainId` is not answered locally — the only mention in
the code is a TODO (app.rs line 629).  The request goes to the default arm, one
upstream call to the best balanced server is made, and its cache key carries the
current head hash (`get_cached_response` always sets `Some(head)`). -/
theorem chain_id_not_answered_locally :
    (cacheKeyOf 7 chainIdReq).headHash = some 7 ∧
    (run (fun _ => .ok "0x1") (initState 7 [chainIdReq]) [0, 0, 0, 0]).calls
      = [⟨0, .best, "eth_chainId"⟩] :=
  ⟨rfl, rfl⟩

/-- Two structurally different configurations, used to show the request timeout
does not depend on the configuration. -/
def cfgSmall : RpcConfig := ⟨⟨1, none⟩, [], []⟩

/-- A second configuration differing from `cfgSmall` in every field. -/
def cfgBig : RpcConfig :=
  ⟨⟨5, some "redis-url"⟩, [("a", ⟨"url-a", 10, none⟩)], [("b", ⟨"url-b", 2, some 3⟩)]⟩

/-- C8 counterexample: the wall-clock timeout of `proxy_web3_rpc` is the literal
`Duration::from_secs(60)` (app.rs line 541); `RpcConfig` (config.rs) has no
timeout field, and two configurations differing in every field still yield the
same 60-second deadline — the timeout is not configurable. -/
theorem timeout_not_configurable :
    cfgSmall ≠ cfgBig ∧ max_time cfgSmall = 60 ∧ max_time cfgBig = 60 :=
  ⟨by decide, rfl, rfl⟩

/-- C9: each `newPendingTransactions` notification is the JSON-RPC 2.0 envelope
with method `eth_subscription` and params `subscription`/`result`, where `result`
is the transaction hash only; `Pending` and `Orphaned` states are emitted and a
`Confirmed` state is skipped (`continue` in the loop at app.rs lines 389-404). -/
theorem pending_tx_subscription_envelope (sid : String) (tx : Transaction) :
    pending_tx_notification sid (.Pending tx)
      = some ⟨"2.0", "eth_subscription", sid, tx.hash⟩ ∧
    pending_tx_notification sid (.Orphaned tx)
      = some ⟨"2.0", "eth_subscription", sid, tx.hash⟩ ∧
    pending_tx_notification sid (.Confirmed tx) = none :=
  ⟨rfl, rfl, rfl⟩

/-! Structural lemmas about the step semantics and the cache model. -/

/-- Reading back the thread that `applyStep` just wrote. -/
theorem applyStep_threads_self (s : SysState) (i : Nat) (t t' : Thread)
    (cache' : List (CacheKey × Resp)) (inflight' : List (CacheKey × Nat))
    (cs : List Call) (ht : s.threads[i]? = some t) :
    (applyStep s i t' cache' inflight' cs).threads[i]? = some t' := by
  obtain ⟨hlt, -⟩ := List.getElem?_eq_some.mp ht
  simpa [applyStep] using List.getElem?_set_eq_of_lt t' hlt

/-- A step of thread `j` leaves every other thread's slot alone and appends no
dispatch record carrying another thread's id. -/
theorem step_other (oracle : Nat → Except String Resp) (s : SysState) (j i : Nat)
    (hne : j ≠ i) :
    (step oracle s j).threads[i]? = s.threads[i]? ∧
    (step oracle s j).calls.filter (fun c => c.thread == i)
      = s.calls.filter (fun c => c.thread == i) := by
  have hset : ∀ t' : Thread, (s.threads.set j t')[i]? = s.threads[i]? :=
    fun t' => List.getElem?_set_ne hne
  unfold step
  repeat' split
  all_goals
    first
      | exact ⟨rfl, rfl⟩
      | (refine ⟨hset _, ?_⟩
         have hji : (j == i) = false := by simp [hne]
         simp [applyStep, List.filter_append, List.filter, hji])

/-- Invariant carried by a request whose method is in the forbidden list: the task
is still at entry or has already been rejected, and the dispatch log holds no call
made on its behalf. -/
def ForbInv (i : Nat) (meth : String) (s : SysState) : Prop :=
  s.calls.filter (fun c => c.thread == i) = [] ∧
  ∃ t, s.threads[i]? = some t ∧ t.req.method = meth ∧
    (t.phase = .start ∨ t.phase = .done (.error "unimplemented"))

/-- One step of any thread preserves `ForbInv`. -/
theorem forbInv_step (oracle : Nat → Except String Resp) (i : Nat) (meth : String)
    (hf : forbiddenMethods.contains meth = true) (s : SysState) (j : Nat)
    (hinv : ForbInv i meth s) : ForbInv i meth (step oracle s j) := by
  obtain ⟨hcalls, t, ht, hm, hphase⟩ := hinv
  by_cases hij : j = i
  · subst hij
    rcases hphase with hp | hp
    · have hstep : step oracle s j
          = applyStep s j
              { t with phase := .done (.error "unimplemented"), chanOpen := false }
              s.cache s.inflight [] := by
        unfold step
        simp only [ht, hp, hm, hf, if_true]
      rw [hstep]
      refine ⟨by simpa [applyStep] using hcalls,
        { t with phase := .done (.error "unimplemented"), chanOpen := false },
        applyStep_threads_self s j t _ _ _ _ ht, hm, Or.inr rfl⟩
    · have hstep : step oracle s j = s := by
        unfold step
        simp only [ht, hp]
      rw [hstep]
      exact ⟨hcalls, t, ht, hm, Or.inr hp⟩
  · obtain ⟨hth, hcf⟩ := step_other oracle s j i hij
    exact ⟨by rw [hcf]; exact hcalls, t, by rw [hth]; exact ht, hm, hphase⟩

/-- A whole run preserves `ForbInv`. -/
theorem forbInv_run (oracle : Nat → Except String Resp) (i : Nat) (meth : String)
    (hf : forbiddenMethods.contains meth = true) (s : SysState) (sched : List Nat)
    (hinv : ForbInv i meth s) : ForbInv i meth (run oracle s sched) := by
  induction sched generalizing s with
  | nil => exact hinv
  | cons j rest ih => exact ih _ (forbInv_step oracle i meth hf s j hinv)

/-- C3 amended: a request whose method is one of the literals of the code's match
list (specific `admin_`, `debug_`, `les_`, `miner_` and `personal_` methods) is
rejected with the `unimplemented` error and never causes an upstream call, under
every schedule and any set of concurrent requests; methods that merely match the
spec's wildcard classes but are absent from the list are NOT rejected (see the
counterexample). -/
theorem forbidden_method_no_upstream_call
    (oracle : Nat → Except String Resp) (head : Nat) (reqs : List JsonRpcRequest)
    (sched : List Nat) (i : Nat) (req : JsonRpcRequest)
    (hreq : reqs[i]? = some req)
    (hf : forbiddenMethods.contains req.method = true) :
    (run oracle (initState head reqs) sched).calls.filter (fun c => c.thread == i)
      = [] ∧
    ∃ t, (run oracle (initState head reqs) sched).threads[i]? = some t ∧
      (t.phase = .start ∨ t.phase = .done (.error "unimplemented")) := by
  have hinv : ForbInv i req.method (initState head reqs) := by
    refine ⟨rfl, initThread req, ?_, rfl, Or.inl rfl⟩
    simp [initState, List.getElem?_map, hreq, initThread]
  obtain ⟨h1, t, h2, h3, h4⟩ :=
    forbInv_run oracle i req.method hf (initState head reqs) sched hinv
  exact ⟨h1, t, h2, h4⟩

/-- A request for a method of the forbidden list, for the C3 witness. -/
def personalSignReq : JsonRpcRequest := ⟨1, "personal_sign", none⟩

/-- Witness for C3's amended theorem at a concrete input: a `personal_sign`
request run to completion alone makes no upstream call and ends rejected. -/
theorem forbidden_method_no_upstream_call_witness :
    (run okOracle (initState 7 [personalSignReq]) [0, 0, 0]).calls.filter
        (fun c => c.thread == 0)
      = [] ∧
    ∃ t, (run okOracle (initState 7 [personalSignReq]) [0, 0, 0]).threads[0]? = some t ∧
      (t.phase = .start ∨ t.phase = .done (.error "unimplemented")) :=
  forbidden_method_no_upstream_call okOracle 7 [personalSignReq] [0, 0, 0] 0
    personalSignReq rfl (by decide)

/-- A task parked on a closed completion channel wakes into its cache re-check:
`changed().await` returns as soon as the sender is dropped or has sent. -/
theorem step_wakes_waiter (oracle : Nat → Except String Resp) (s' : SysState)
    (j i : Nat) (tj ti : Thread) (hj : s'.threads[j]? = some tj)
    (hw : tj.phase = .awaitSignal i) (hi : s'.threads[i]? = some ti)
    (hc : ti.chanOpen = false) :
    (step oracle s' j).threads[j]? = some { tj with phase := .recheckCache } := by
  have hstep : step oracle s' j
      = applyStep s' j { tj with phase := .recheckCache } s'.cache s'.inflight [] := by
    unfold step
    simp [hj, hw, hi, hc]
  rw [hstep]
  exact applyStep_threads_self _ j tj _ _ _ _ hj

/-- C2 amended: when a cacheable request's upstream dispatch fails, nothing is
written to the cache and the task's completion channel closes (the waiters parked
on it are woken and proceed to re-check the cache), but the `InflightRequest`
entry is NOT removed from the inflight table — the `?` early return skips
`incoming_requests.remove`; the stale entry is only removed by a later request
for the same key (cache-hit path or a completed dispatch). -/
theorem dispatch_failure_signals_without_removal
    (oracle : Nat → Except String Resp) (s : SysState) (i : Nat) (t : Thread)
    (e : String) (ht : s.threads[i]? = some t) (hp : t.phase = .dispatch)
    (ho : oracle i = .error e) :
    (step oracle s i).cache = s.cache ∧
    (step oracle s i).inflight = s.inflight ∧
    (step oracle s i).threads[i]?
      = some { t with phase := .done (.error e), chanOpen := false } ∧
    ∀ j tj, (step oracle s i).threads[j]? = some tj → tj.phase = .awaitSignal i →
      (step oracle (step oracle s i) j).threads[j]?
        = some { tj with phase := .recheckCache } := by
  have hstep : step oracle s i
      = applyStep s i { t with phase := .done (.error e), chanOpen := false }
          s.cache s.inflight
          [⟨i, if fanQueryMethods.contains t.req.method then .allPrivate else .best,
             t.req.method⟩] := by
    unfold step
    simp only [ht, hp, ho]
  have hti : (step oracle s i).threads[i]?
      = some { t with phase := .done (.error e), chanOpen := false } := by
    rw [hstep]
    exact applyStep_threads_self s i t _ _ _ _ ht
  refine ⟨by rw [hstep]; rfl, by rw [hstep]; rfl, hti, ?_⟩
  intro j tj hj hwait
  exact step_wakes_waiter oracle (step oracle s i) j i tj
    { t with phase := .done (.error e), chanOpen := false } hj hwait hti rfl

/-- A two-task state in which task 0 is about to dispatch `failReq` and task 1 is
parked on task 0's completion channel. -/
def waitState : SysState := run failOracle (initState 7 [failReq, failReq]) [0, 1, 0, 1]

/-- Witness for C2's amended theorem at a concrete input: the failure step leaves
the cache and the inflight table unchanged, completes task 0 with the error and a
closed channel, and the parked task 1 then wakes into its cache re-check. -/
theorem dispatch_failure_signals_without_removal_witness :
    (step failOracle waitState 0).cache = waitState.cache ∧
    (step failOracle waitState 0).inflight = waitState.inflight ∧
    (step failOracle waitState 0).threads[0]?
      = some ⟨failReq, .done (.error "connection reset"), false⟩ ∧
    (step failOracle (step failOracle waitState 0) 1).threads[1]?
      = some ⟨failReq, .recheckCache, true⟩ :=
  ⟨(dispatch_failure_signals_without_removal failOracle waitState 0
      ⟨failReq, .dispatch, true⟩ "connection reset" rfl rfl rfl).1,
   (dispatch_failure_signals_without_removal failOracle waitState 0
      ⟨failReq, .dispatch, true⟩ "connection reset" rfl rfl rfl).2.1,
   (dispatch_failure_signals_without_removal failOracle waitState 0
      ⟨failReq, .dispatch, true⟩ "connection reset" rfl rfl rfl).2.2.1,
   (dispatch_failure_signals_without_removal failOracle waitState 0
      ⟨failReq, .dispatch, true⟩ "connection reset" rfl rfl rfl).2.2.2 1
      ⟨failReq, .awaitSignal 0, true⟩ rfl rfl⟩

/-- Reading back the value just inserted into the cache model. -/
theorem lhmGet_lhmInsert (c : List (CacheKey × Resp)) (k : CacheKey) (v : Resp) :
    lhmGet (lhmInsert c k v) k = some v := by
  induction c with
  | nil => simp [lhmInsert, lhmGet]
  | cons e rest ih =>
    obtain ⟨k', v'⟩ := e
    by_cases h : k' = k
    · simp [lhmInsert, lhmGet, h]
    · simp [lhmInsert, lhmGet, h, ih]

/-- Inserting grows the cache by at most one entry. -/
theorem lhmInsert_length_le (c : List (CacheKey × Resp)) (k : CacheKey) (v : Resp) :
    (lhmInsert c k v).length ≤ c.length + 1 := by
  induction c with
  | nil => simp [lhmInsert]
  | cons e rest ih =>
    obtain ⟨k', v'⟩ := e
    by_cases h : k' = k
    · simp [lhmInsert, h]
    · simp only [lhmInsert, h, if_false, List.length_cons]
      omega

/-- Below capacity the trim does nothing. -/
theorem cacheInsertTrim_of_lt (c : List (CacheKey × Resp)) (k : CacheKey) (v : Resp)
    (h : c.length + 1 < RESPONSE_CACHE_CAP) :
    cacheInsertTrim c k v = lhmInsert c k v := by
  have hlen := lhmInsert_length_le c k v
  have hnot : ¬ RESPONSE_CACHE_CAP ≤ (lhmInsert c k v).length := by omega
  simp [cacheInsertTrim, hnot]

/-- C4 amended: a fan-query method (`eth_getTransactionByHash`,
`eth_getTransactionReceipt`) is dispatched with `try_send_all_upstream_servers`
on the PRIVATE pool (which is the balanced pool when no private relays are
configured), where the first non-null per-upstream answer wins; and contrary to
the claim, on success the response IS written into the response cache under the
head-keyed cache key (and can later be served from it). -/
theorem fan_query_routed_private_and_cached
    (oracle : Nat → Except String Resp) (s : SysState) (i : Nat) (t : Thread)
    (r : Resp) (ht : s.threads[i]? = some t) (hp : t.phase = .dispatch)
    (hm : fanQueryMethods.contains t.req.method = true) (ho : oracle i = .ok r)
    (hcap : s.cache.length + 1 < RESPONSE_CACHE_CAP) :
    (step oracle s i).calls = s.calls ++ [⟨i, .allPrivate, t.req.method⟩] ∧
    lhmGet (step oracle (step oracle s i) i).cache (cacheKeyOf s.headBlockHash t.req)
      = some r ∧
    ∀ nulls rest : List (Option Resp), (∀ x ∈ nulls, x = none) →
      try_send_all_upstream_servers (nulls ++ some r :: rest) = .ok r := by
  have hmem : t.req.method ∈ fanQueryMethods := by simpa using hm
  have hstep : step oracle s i
      = applyStep s i { t with phase := .finish r } s.cache s.inflight
          [⟨i, .allPrivate, t.req.method⟩] := by
    unfold step
    simp [ht, hp, ho, hmem]
  have hti : (step oracle s i).threads[i]? = some { t with phase := .finish r } := by
    rw [hstep]
    exact applyStep_threads_self s i t _ _ _ _ ht
  refine ⟨by rw [hstep]; rfl, ?_, ?_⟩
  · have hc : (step oracle s i).cache = s.cache := by rw [hstep]; rfl
    have hh : (step oracle s i).headBlockHash = s.headBlockHash := by rw [hstep]; rfl
    have hstep2 : step oracle (step oracle s i) i
        = applyStep (step oracle s i) i
            { t with phase := .done (.ok r), chanOpen := false }
            (cacheInsertTrim (step oracle s i).cache
              (cacheKeyOf (step oracle s i).headBlockHash t.req) r)
            (inflightRemove (step oracle s i).inflight
              (cacheKeyOf (step oracle s i).headBlockHash t.req)) [] := by
      generalize hgen : step oracle s i = s1 at hti ⊢
      unfold step
      simp only [hti]
    rw [hstep2]
    show lhmGet (cacheInsertTrim (step oracle s i).cache
        (cacheKeyOf (step oracle s i).headBlockHash t.req) r) _ = some r
    rw [hc, hh, cacheInsertTrim_of_lt _ _ _ hcap, lhmGet_lhmInsert]
  · intro nulls rest hnulls
    induction nulls with
    | nil => simp [try_send_all_upstream_servers]
    | cons x xs ih =>
      have hx : x = none := hnulls x (by simp)
      subst hx
      simpa [try_send_all_upstream_servers] using
        ih (fun y hy => hnulls y (by simp [hy]))

/-- A one-task state in which the fan-query request is about to dispatch. -/
def fanDispatchState : SysState :=
  run (fun _ => .ok "txbody") (initState 7 [txByHashReq]) [0, 0]

/-- Witness for C4's amended theorem at a concrete input. -/
theorem fan_query_routed_private_and_cached_witness :
    (step (fun _ => Except.ok "txbody") fanDispatchState 0).calls
      = fanDispatchState.calls ++ [⟨0, .allPrivate, txByHashReq.method⟩] ∧
    lhmGet (step (fun _ => Except.ok "txbody")
        (step (fun _ => Except.ok "txbody") fanDispatchState 0) 0).cache
      (cacheKeyOf fanDispatchState.headBlockHash txByHashReq) = some "txbody" ∧
    try_send_all_upstream_servers [none, some "txbody"] = .ok "txbody" :=
  ⟨(fan_query_routed_private_and_cached (fun _ => .ok "txbody") fanDispatchState 0
      ⟨txByHashReq, .dispatch, true⟩ "txbody" rfl rfl rfl rfl (by decide)).1,
   (fan_query_routed_private_and_cached (fun _ => .ok "txbody") fanDispatchState 0
      ⟨txByHashReq, .dispatch, true⟩ "txbody" rfl rfl rfl rfl (by decide)).2.1,
   (fan_query_routed_private_and_cached (fun _ => .ok "txbody") fanDispatchState 0
      ⟨txByHashReq, .dispatch, true⟩ "txbody" rfl rfl rfl rfl (by decide)).2.2
      [none] [] (by simp)⟩

/-- C5 amended: `eth_chainId` and `net_version` are NOT answered locally (the
code only has a TODO for that); they are treated like every other head-dependent
method — the cache key carries the current head hash, and the dispatch goes to
the best balanced upstream. -/
theorem chain_id_head_dependent
    (oracle : Nat → Except String Resp) (s : SysState) (i : Nat) (t : Thread)
    (ht : s.threads[i]? = some t) (hp : t.phase = .dispatch)
    (hm : t.req.method = "eth_chainId" ∨ t.req.method = "net_version") :
    (cacheKeyOf s.headBlockHash t.req).headHash = some s.headBlockHash ∧
    (step oracle s i).calls = s.calls ++ [⟨i, .best, t.req.method⟩] := by
  have hnmem : t.req.method ∉ fanQueryMethods := by
    rcases hm with h | h <;> rw [h] <;> decide
  refine ⟨rfl, ?_⟩
  cases ho : oracle i with
  | error e =>
    have hstep : step oracle s i
        = applyStep s i { t with phase := .done (.error e), chanOpen := false }
            s.cache s.inflight [⟨i, .best, t.req.method⟩] := by
      unfold step
      simp [ht, hp, ho, hnmem]
    rw [hstep]
    rfl
  | ok r =>
    have hstep : step oracle s i
        = applyStep s i { t with phase := .finish r } s.cache s.inflight
            [⟨i, .best, t.req.method⟩] := by
      unfold step
      simp [ht, hp, ho, hnmem]
    rw [hstep]
    rfl

/-- A one-task state in which the `eth_chainId` request is about to dispatch. -/
def chainIdDispatchState : SysState :=
  run (fun _ => .ok "0x1") (initState 7 [chainIdReq]) [0, 0]

/-- Witness for C5's amended theorem at a concrete input. -/
theorem chain_id_head_dependent_witness :
    (cacheKeyOf chainIdDispatchState.headBlockHash chainIdReq).headHash
      = some chainIdDispatchState.headBlockHash ∧
    (step (fun _ => Except.ok "0x1") chainIdDispatchState 0).calls
      = chainIdDispatchState.calls ++ [⟨0, .best, chainIdReq.method⟩] :=
  chain_id_head_dependent (fun _ => .ok "0x1") chainIdDispatchState 0
    ⟨chainIdReq, .dispatch, true⟩ rfl rfl (Or.inl rfl)

/-- Inserting never changes which key sits at the front of the insertion order
(the entry created earliest among those present). -/
theorem lhmInsert_head_key (c : List (CacheKey × Resp)) (k : CacheKey) (v : Resp)
    (hc : c ≠ []) :
    ((lhmInsert c k v).head?).map Prod.fst = (c.head?).map Prod.fst := by
  cases c with
  | nil => exact absurd rfl hc
  | cons e rest =>
    obtain ⟨k', v'⟩ := e
    by_cases h : k' = k <;> simp [lhmInsert, h]

/-- C6: the response cache stays within `RESPONSE_CACHE_CAP = 1024` entries across
every insert-and-trim (app.rs lines 759-763), and when the bound is hit the evicted
victim is the front of the insertion order — the entry created earliest ("least
recently created", as the code's own comment puts it). -/
theorem response_cache_bounded_fifo (c : List (CacheKey × Resp)) (k : CacheKey)
    (v : Resp) (hb : c.length ≤ RESPONSE_CACHE_CAP) :
    (cacheInsertTrim c k v).length ≤ RESPONSE_CACHE_CAP ∧
    (RESPONSE_CACHE_CAP ≤ (lhmInsert c k v).length →
      cacheInsertTrim c k v = (lhmInsert c k v).tail ∧
      ((lhmInsert c k v).head?).map Prod.fst = (c.head?).map Prod.fst) := by
  have hlen := lhmInsert_length_le c k v
  constructor
  · by_cases h : RESPONSE_CACHE_CAP ≤ (lhmInsert c k v).length
    · have htail : ((lhmInsert c k v).tail).length = (lhmInsert c k v).length - 1 :=
        List.length_tail _
      simp only [cacheInsertTrim, h, if_true]
      omega
    · simp only [cacheInsertTrim, h, if_false]
      omega
  · intro h
    have hcap : (1 : Nat) < RESPONSE_CACHE_CAP := by
      simp [RESPONSE_CACHE_CAP]
    have hc : c ≠ [] := by
      intro hnil
      subst hnil
      simp [lhmInsert] at h
      omega
    exact ⟨by simp only [cacheInsertTrim, h, if_true], lhmInsert_head_key c k v hc⟩

/-- A concrete cache key for the C6 witness. -/
def witnessKey : CacheKey := ⟨some 7, "eth_blockNumber", none⟩

/-- Witness for C6 at a concrete input (insertion into the empty cache). -/
theorem response_cache_bounded_fifo_witness :
    (cacheInsertTrim [] witnessKey "0x10").length ≤ RESPONSE_CACHE_CAP ∧
    (RESPONSE_CACHE_CAP ≤ (lhmInsert [] witnessKey "0x10").length →
      cacheInsertTrim [] witnessKey "0x10" = (lhmInsert [] witnessKey "0x10").tail ∧
      ((lhmInsert [] witnessKey "0x10").head?).map Prod.fst
        = (([] : List (CacheKey × Resp)).head?).map Prod.fst) :=
  response_cache_bounded_fifo [] witnessKey "0x10" (by decide)

/-- C7: `update_config` rejects a new configuration whose `chain_id` differs from
the running app's, returning the error before building or swapping anything: the
entire app state (pools, caches, inflight table) is returned unchanged. -/
theorem update_config_rejects_chain_id_change (app : AppState) (new_config : RpcConfig)
    (h : new_config.shared.chain_id ≠ app.chain_id) :
    update_config app new_config = (app, some "cannot change chain id!") := by
  simp [update_config, h]

/-- An app state on chain 1 for the C7 witness. -/
def appOnChainOne : AppState :=
  ⟨1, [("a", ⟨"url-a", 10, none⟩)], [("b", ⟨"url-b", 2, some 3⟩)],
   [(witnessKey, "0x10")], [(witnessKey, 0)]⟩

/-- Witness for C7 at a concrete input: a reload onto chain 5 is rejected and the
state is untouched. -/
theorem update_config_rejects_chain_id_change_witness :
    update_config appOnChainOne cfgBig = (appOnChainOne, some "cannot change chain id!") :=
  update_config_rejects_chain_id_change appOnChainOne cfgBig (by decide)

/-- C8 amended: every top-level request, single or batch, is bounded by a FIXED
60-second wall-clock deadline (`Duration::from_secs(60)`, not configurable — no
configuration field feeds it); when the inner work takes longer the request
completes with the timeout's `Elapsed` error regardless of upstream state. -/
theorem request_timeout_fixed_sixty (cfg : RpcConfig) (req : JsonRpcRequestEnum)
    (elapsed : Nat) (inner : Except String (List Resp)) (h : 60 < elapsed) :
    max_time cfg = 60 ∧
    proxy_web3_rpc cfg req elapsed inner = .error "deadline has elapsed" := by
  exact ⟨rfl, by simp [proxy_web3_rpc, max_time, h]⟩

/-- Witness for C8's amended theorem at a concrete input: a single request whose
upstream never responds within 61 seconds times out even though the (late) inner
result would have been a success. -/
theorem request_timeout_fixed_sixty_witness :
    max_time cfgSmall = 60 ∧
    proxy_web3_rpc cfgSmall (.single (blockNumberReq 1)) 61 (.ok ["0x10"])
      = .error "deadline has elapsed" :=
  request_timeout_fixed_sixty cfgSmall (.single (blockNumberReq 1)) 61 (.ok ["0x10"])
    (by decide)

/-- C10: `eth_subscribe` accepts exactly the four literal params texts (a
subscription task is spawned only for those); any other params value — including
whitespace variations — returns the `unimplemented` error without spawning, and a
request with no params field at all panics on the `unwrap()` of `payload.params`
(app.rs line 342) instead of returning an error. -/
theorem eth_subscribe_exact_params :
    eth_subscribe none = .panicked ∧
    (∀ p : String, (∃ k, eth_subscribe (some p) = .subscribed k) ↔ p ∈ subscribeKinds) ∧
    (∀ p : String, p ∉ subscribeKinds →
      eth_subscribe (some p) = .errored "unimplemented") := by
  refine ⟨rfl, ?_, ?_⟩
  · intro p
    constructor
    · intro ⟨k, hk⟩
      simp only [eth_subscribe] at hk
      split_ifs at hk with h1 h2 h3 h4
      · subst h1; simp [subscribeKinds]
      · subst h2; simp [subscribeKinds]
      · subst h3; simp [subscribeKinds]
      · subst h4; simp [subscribeKinds]
    · intro hp
      simp only [subscribeKinds, List.mem_cons, List.mem_singleton] at hp
      rcases hp with h | h | h | (h | h)
      · subst h; exact ⟨"newHeads", rfl⟩
      · subst h; exact ⟨"newPendingTransactions", rfl⟩
      · subst h; exact ⟨"newPendingFullTransactions", rfl⟩
      · subst h; exact ⟨"newPendingRawTransactions", rfl⟩
      · simp at h
  · intro p hp
    simp only [subscribeKinds, List.mem_cons, List.mem_singleton, not_or] at hp
    obtain ⟨h1, h2, h3, h4, -⟩ := hp
    simp [eth_subscribe, h1, h2, h3, h4]

/-- Witness for C10 at concrete inputs: a params text differing from
`[\x22newHeads\x22]` only by one inner space is rejected with the error. -/
theorem eth_subscribe_exact_params_witness :
    eth_subscribe (some "[\"newHeads\" ]") = .errored "unimplemented" :=
  eth_subscribe_exact_params.2.2 "[\"newHeads\" ]" (by decide)
